import Mathlib

/-!
Verification of the PYQ semantic-search subsystem of the edvise repository.

The embedding below translates, from the TypeScript sources:
  - the result record type of types.ts,
  - both generations of the frontend API adapter searchPYQs (the older one,
    whose filters carry no page field, and the newer one, which forwards
    page and a timestamp),
  - the searchFilters construction and the handleSearch state update of the
    paginated PYQSearchPage, together with the enabling conditions of its
    Search, Next and Previous controls, as a small transition system.

The backend vector service (result cache, pagination slicer, request
validation) is not present under src; those operations are modelled from
the specification, and each such definition says so in its doc comment.
-/

/-- Whitespace test backing the JS string trim used by the page guard. -/
def jsIsWhitespace (c : Char) : Bool :=
  c = ' ' || c = '\t' || c = '\n' || c = '\r' || c = '\x0b' || c = '\x0c'

/-- Model of the JS expression query.trim(): strip whitespace from both ends. -/
def jsTrim (s : String) : String :=
  ⟨((s.data.dropWhile jsIsWhitespace).reverse.dropWhile jsIsWhitespace).reverse⟩

/-- One search hit, as declared by interface PYQSearchResult in types.ts:
id, question, year, paper, subject, topics, marks, difficulty and the
similarity score. -/
structure PYQSearchResult where
  id : Int
  question : String
  year : Int
  paper : String
  subject : String
  topics : List String
  marks : Int
  difficulty : String
  similarity_score : Rat
  deriving DecidableEq

/-- Filters parameter of the older ApiService.searchPYQs:
subject, year and limit are optional; there is no page field. -/
structure SearchFiltersV1 where
  subject : Option String
  year : Option Int
  limit : Option Int
  deriving DecidableEq

/-- Filters parameter of the newer ApiService.searchPYQs: adds page. -/
structure SearchFiltersV2 where
  subject : Option String
  year : Option Int
  limit : Option Int
  page : Option Int
  deriving DecidableEq

/-- UI filter state of PYQSearchPage: both selects hold strings, and the
empty string is the unset value (All Subjects / All Years). -/
structure UiFilters where
  subject : String
  year : String
  deriving DecidableEq

/-- JS x || d on an optional number: undefined and 0 are falsy and give d. -/
def jsOrNum (x : Option Int) (d : Int) : Int :=
  match x with
  | none => d
  | some v => if v = 0 then d else v

/-- JS conditional spread on an optional string field,
the pattern ...(x && \x7b f: x \x7d): undefined and the empty string are
falsy, so the field is omitted for both. -/
def jsStrGuard (x : Option String) : Option String :=
  match x with
  | none => none
  | some s => if s = "" then none else some s

/-- JS conditional spread on an optional number field: undefined and 0 are
falsy, so the field is omitted for both. -/
def jsIntGuard (x : Option Int) : Option Int :=
  match x with
  | none => none
  | some v => if v = 0 then none else some v

/-- Request body built by the older searchPYQs: query, limit defaulted
through filters?.limit || 10, and conditionally spread subject and year.
No page field exists in this body. -/
structure SearchRequestV1 where
  query : String
  limit : Int
  subject : Option String
  year : Option Int
  deriving DecidableEq

/-- The older ApiService.searchPYQs request construction. -/
def buildSearchRequestV1 (query : String) (filters : Option SearchFiltersV1) :
    SearchRequestV1 :=
  { query := query
    limit := jsOrNum (filters.bind (·.limit)) 10
    subject := jsStrGuard (filters.bind (·.subject))
    year := jsIntGuard (filters.bind (·.year)) }

/-- Request body built by the newer searchPYQs: adds page defaulted through
filters?.page || 1 and a timestamp for cache busting. -/
structure SearchRequestV2 where
  query : String
  limit : Int
  page : Int
  timestamp : Int
  subject : Option String
  year : Option Int
  deriving DecidableEq

/-- The newer ApiService.searchPYQs request construction; now stands for
the value of Date.now() at call time. -/
def buildSearchRequestV2 (query : String) (filters : Option SearchFiltersV2)
    (now : Int) : SearchRequestV2 :=
  { query := query
    limit := jsOrNum (filters.bind (·.limit)) 10
    page := jsOrNum (filters.bind (·.page)) 1
    timestamp := now
    subject := jsStrGuard (filters.bind (·.subject))
    year := jsIntGuard (filters.bind (·.year)) }

/-- The axios response envelope as used by the adapter: a data payload plus
an HTTP status. -/
structure AxiosResponse (α : Type) where
  data : α
  status : Int

/-- The final line of searchPYQs, return response.data: the backend array
is handed back directly, not unwrapped from a nested envelope field. -/
def searchPYQsExtract (response : AxiosResponse (List PYQSearchResult)) :
    List PYQSearchResult :=
  response.data

/-- Value of a decimal digit string, most significant first. -/
def digitsVal (ds : List Char) : Nat :=
  ds.foldl (fun a c => a * 10 + (c.toNat - 48)) 0

/-- Model of JS parseInt at radix 10: trim, optional sign, then the longest
leading digit run; none models the NaN result when no digit is found. -/
def jsParseInt (s : String) : Option Int :=
  let cs := (jsTrim s).data
  let signRest : Int × List Char :=
    match cs with
    | '-' :: r => (-1, r)
    | '+' :: r => (1, r)
    | r => (1, r)
  let ds := signRest.2.takeWhile Char.isDigit
  if ds.isEmpty then none else some (signRest.1 * (digitsVal ds : Int))

/-- The searchFilters object assembled inside handleSearch of the paginated
PYQSearchPage: subject and year are conditionally spread from the string
filter state (empty string means unset, a set year goes through parseInt),
and page and limit: 10 are always present.
The year select only offers the empty string or a decimal year string, on
which jsParseInt always succeeds; the none result of jsParseInt models the
NaN case, which that select cannot produce. -/
def uiSearchFilters (f : UiFilters) (page : Int) : SearchFiltersV2 :=
  { subject := if f.subject = "" then none else some f.subject
    year := if f.year = "" then none else jsParseInt f.year
    limit := some 10
    page := some page }

/-- The component state of PYQSearchPage that the claims mention: the query
and filter inputs, the result list, the loading flag, and the pagination
state (currentPage, hasMoreResults, totalResults). -/
structure PageState where
  query : String
  results : List PYQSearchResult
  loading : Bool
  filters : UiFilters
  currentPage : Int
  hasMoreResults : Bool
  totalResults : Int
  deriving DecidableEq

/-- The useState initial values of PYQSearchPage. -/
def initialPageState : PageState :=
  { query := ""
    results := []
    loading := false
    filters := { subject := "", year := "" }
    currentPage := 1
    hasMoreResults := false
    totalResults := 0 }

/-- handleSearch(page) of the paginated PYQSearchPage, as an atomic state
transformer. outcome is the settled searchPYQs promise: some rs when it
resolves with the result array, none when it rejects. now feeds Date.now()
in the request builder. The second component is the request issued, none
when the blank-query guard returns early. On resolution the state update
sets results, currentPage := page, hasMoreResults := (rs.length === 10)
and totalResults := (page - 1) * 10 + rs.length; on rejection only the
finally block runs, resetting loading. -/
def handleSearch (s : PageState) (page : Int) (now : Int)
    (outcome : Option (List PYQSearchResult)) :
    PageState × Option SearchRequestV2 :=
  if jsTrim s.query = "" then (s, none)
  else
    let req := buildSearchRequestV2 s.query (some (uiSearchFilters s.filters page)) now
    match outcome with
    | some rs =>
        ({ s with results := rs
                  currentPage := page
                  hasMoreResults := rs.length == 10
                  totalResults := (page - 1) * 10 + (rs.length : Int)
                  loading := false }, some req)
    | none => ({ s with loading := false }, some req)

/-- The filter-change effect of PYQSearchPage: guarded by a non-blank query
and a non-empty result list, it reissues the search at page 1 and on
resolution sets results, currentPage := 1, hasMoreResults := (length ===
10) and totalResults := length; on rejection only loading is reset. -/
def autoSearch (s : PageState) (now : Int)
    (outcome : Option (List PYQSearchResult)) :
    PageState × Option SearchRequestV2 :=
  if jsTrim s.query = "" ∨ s.results.length = 0 then (s, none)
  else
    let req := buildSearchRequestV2 s.query (some (uiSearchFilters s.filters 1)) now
    match outcome with
    | some rs =>
        ({ s with results := rs
                  currentPage := 1
                  hasMoreResults := rs.length == 10
                  totalResults := (rs.length : Int)
                  loading := false }, some req)
    | none => ({ s with loading := false }, some req)

/-- The user interactions of PYQSearchPage that touch the search state. -/
inductive UiEvent where
  | setQuery (q : String)
  | setSubject (subject : String)
  | setYear (year : String)
  | searchClick (now : Int) (outcome : Option (List PYQSearchResult))
  | enterKey (now : Int) (outcome : Option (List PYQSearchResult))
  | nextClick (now : Int) (outcome : Option (List PYQSearchResult))
  | prevClick (now : Int) (outcome : Option (List PYQSearchResult))
  | filtersAutoSearch (now : Int) (outcome : Option (List PYQSearchResult))

/-- One user interaction. Disabled controls are no-ops: the Search button is
disabled while loading; Next and Previous render only when results exist,
Next is disabled when hasMoreResults is false or while loading, Previous is
disabled at currentPage === 1 or while loading. The Enter key handler calls
handleSearch(1) directly. -/
def uiStep (s : PageState) (e : UiEvent) : PageState × Option SearchRequestV2 :=
  match e with
  | .setQuery q => ({ s with query := q }, none)
  | .setSubject sub => ({ s with filters := { s.filters with subject := sub } }, none)
  | .setYear y => ({ s with filters := { s.filters with year := y } }, none)
  | .searchClick now o => if s.loading then (s, none) else handleSearch s 1 now o
  | .enterKey now o => handleSearch s 1 now o
  | .nextClick now o =>
      if s.results.length = 0 ∨ s.hasMoreResults = false ∨ s.loading then (s, none)
      else handleSearch s (s.currentPage + 1) now o
  | .prevClick now o =>
      if s.results.length = 0 ∨ s.currentPage = 1 ∨ s.loading then (s, none)
      else handleSearch s (s.currentPage - 1) now o
  | .filtersAutoSearch now o => autoSearch s now o

/-- Run a sequence of interactions from a state, collecting every search
request issued along the way. -/
def uiRun (s : PageState) : List UiEvent → PageState × List SearchRequestV2
  | [] => (s, [])
  | e :: es =>
      ((uiRun (uiStep s e).1 es).1,
        (uiStep s e).2.toList ++ (uiRun (uiStep s e).1 es).2)

/-- Cache time-to-live: 5 minutes, in milliseconds. -/
def cacheTTL : Nat := 5 * 60 * 1000

/-- Modelled from the spec: the CacheEntry record of section 3. The backend
cache (pyq_vector_service.py) is absent from src and only named in the
optimization notes. -/
structure CacheEntry where
  fingerprint : String
  results : List PYQSearchResult
  createdAt : Nat
  deriving DecidableEq

/-- Modelled from the spec: cache get with lazy expiration, section 4.5.
The method _is_cache_valid of pyq_vector_service.py is absent from src.
An entry is treated as absent if now - createdAt > TTL, even if still
physically stored. -/
def cacheGet (store : String → Option CacheEntry) (fp : String) (now : Nat) :
    Option CacheEntry :=
  match store fp with
  | none => none
  | some e => if now - e.createdAt > cacheTTL then none else some e

/-- Modelled from the spec: the fingerprint of section 3, a deterministic
key over the query text and the filter values, with page and limit excluded
by design. The method _generate_cache_key is absent from src; the hash is
modelled as the injective tuple itself. -/
structure Fingerprint where
  query : String
  subject : Option String
  year : Option Int
  deriving DecidableEq

/-- The fingerprint a request maps to: its query and filters, never its
page, limit or timestamp. -/
def fingerprintOfRequest (r : SearchRequestV2) : Fingerprint :=
  { query := r.query, subject := r.subject, year := r.year }

/-- Modelled from the spec: _slice_results of pyq_vector_service.py is
absent from src and only named in the optimization notes; section 4.6
defines slice(results, page, limit) as the window of up to limit items
starting at offset (page - 1) * limit. -/
def sliceResults (results : List PYQSearchResult) (page limit : Nat) :
    List PYQSearchResult :=
  (results.drop ((page - 1) * limit)).take limit

/-- The caller-visible error kinds of section 7. -/
inductive SearchErrorKind where
  | InvalidQuery
  | EmbeddingUnavailable
  | IndexUnavailable
  deriving DecidableEq

/-- Modelled from the spec: backend request validation is absent from src;
section 7 rejects with InvalidQuery an empty or whitespace query, or
page < 1, or limit < 1. -/
def validateRequest (query : String) (page limit : Int) :
    Except SearchErrorKind Unit :=
  if jsTrim query = "" then .error .InvalidQuery
  else if page < 1 ∨ limit < 1 then .error .InvalidQuery
  else .ok ()

/-- The ten options of the year select on PYQSearchPage,
Array.from of length 10 mapping i to 2024 - i. -/
def uiYears : List Int := (List.range 10).map (fun i => (2024 : Int) - (i : Int))

/-- A page state whose query is set, used by the concrete witnesses. -/
def sampleState : PageState := { initialPageState with query := "climate" }

/-- C7: every successful search response is an ordered window of at most
limit items drawn from the full result set, each item a PYQSearchResult
record (id, question, year, paper, subject, topics, marks, difficulty,
similarity score), and the adapter returns the backend array directly
rather than unwrapping an envelope. -/
theorem search_response_shape (results : List PYQSearchResult) (page limit : Nat)
    (body : List PYQSearchResult) (status : Int) :
    (sliceResults results page limit).length ≤ limit
    ∧ (sliceResults results page limit).Sublist results
    ∧ searchPYQsExtract { data := body, status := status } = body := by
  refine ⟨?_, ?_, rfl⟩
  · simp [sliceResults]
  · exact (List.take_sublist _ _).trans (List.drop_sublist _ _)

/-- C8: in the older adapter a falsy caller-supplied limit (0 or
undefined) is silently replaced by the default 10, so no outgoing search
request ever carries limit 0. -/
theorem falsy_limit_replaced_by_default (q : String) (sub : Option String)
    (yr : Option Int) (f : Option SearchFiltersV1) :
    (buildSearchRequestV1 q none).limit = 10
    ∧ (buildSearchRequestV1 q (some { subject := sub, year := yr, limit := none })).limit = 10
    ∧ (buildSearchRequestV1 q (some { subject := sub, year := yr, limit := some 0 })).limit = 10
    ∧ (buildSearchRequestV1 q f).limit ≠ 0 := by
  refine ⟨rfl, rfl, rfl, ?_⟩
  rcases f with _ | ⟨fsub, fyr, fl⟩
  · simp [buildSearchRequestV1, jsOrNum]
  · rcases fl with _ | l
    · simp [buildSearchRequestV1, jsOrNum]
    · by_cases h : l = 0 <;> simp [buildSearchRequestV1, jsOrNum, h]

/-- C5 counterexample: a caller-supplied limit of 0 is not forwarded
unchanged; the request built for limit 0 carries limit 10. -/
theorem limit_zero_not_forwarded :
    (buildSearchRequestV2 "q"
        (some { subject := none, year := none, limit := some 0, page := some 1 }) 0).limit = 10
    ∧ (buildSearchRequestV2 "q"
        (some { subject := none, year := none, limit := some 0, page := some 1 }) 0).limit ≠ 0 := by
  refine ⟨rfl, ?_⟩
  decide

/-- C5 (amended): omitting the limit yields limit 10 in the outgoing
request; a caller-supplied nonzero limit is forwarded unchanged (0 is
replaced by the default 10); and a request omitting page defaults to
page 1. -/
theorem search_request_defaults (q : String) (sub : Option String)
    (yr : Option Int) (now : Int) :
    (buildSearchRequestV2 q none now).limit = 10
    ∧ (buildSearchRequestV2 q
        (some { subject := sub, year := yr, limit := none, page := none }) now).limit = 10
    ∧ (buildSearchRequestV2 q
        (some { subject := sub, year := yr, limit := none, page := none }) now).page = 1
    ∧ (∀ l : Int, l ≠ 0 → ∀ p : Option Int,
        (buildSearchRequestV2 q
          (some { subject := sub, year := yr, limit := some l, page := p }) now).limit = l) := by
  refine ⟨rfl, rfl, rfl, ?_⟩
  intro l hl p
  simp [buildSearchRequestV2, jsOrNum, hl]

/-- Witness for search_request_defaults: a supplied limit of 7 is
forwarded unchanged. -/
theorem search_request_defaults_witness :
    (buildSearchRequestV2 "q"
      (some { subject := none, year := none, limit := some 7, page := some 2 }) 0).limit = 7 :=
  (search_request_defaults "q" none none 0).2.2.2 7 (by decide) (some 2)

/-- C10: an unset (empty-string) subject or year filter is omitted from
the request body entirely, so a request built with no filter and one built
with an empty filter string are identical records in both adapter
generations; a set year filter is converted to an integer by parseInt
before sending. -/
theorem empty_filter_omitted_year_parsed (q sub other : String) (yr : Option Int)
    (l p now : Int) :
    buildSearchRequestV2 q
        (some { subject := some "", year := yr, limit := some l, page := some p }) now
      = buildSearchRequestV2 q
        (some { subject := none, year := yr, limit := some l, page := some p }) now
    ∧ buildSearchRequestV1 q (some { subject := some "", year := yr, limit := some l })
      = buildSearchRequestV1 q (some { subject := none, year := yr, limit := some l })
    ∧ (uiSearchFilters { subject := sub, year := "" } p).year = none
    ∧ (uiSearchFilters { subject := "", year := other } p).subject = none
    ∧ (∀ y ∈ uiYears, (uiSearchFilters { subject := sub, year := toString y } p).year = some y) := by
  refine ⟨rfl, rfl, rfl, rfl, ?_⟩
  simp only [uiSearchFilters]
  decide

/-- Witness for empty_filter_omitted_year_parsed: the year option 2024 is
sent as the integer 2024. -/
theorem empty_filter_omitted_year_parsed_witness :
    (uiSearchFilters { subject := "", year := toString (2024 : Int) } 1).year = some 2024 :=
  (empty_filter_omitted_year_parsed "q" "" "" none 10 1 0).2.2.2.2 2024 (by decide)

/-- C2: after a completed search (limit is always 10 on this page), the
more-results flag is true exactly when the returned page holds 10 items,
and a false flag disables the Next control, which then issues no request
and leaves the state unchanged. -/
theorem hasMore_iff_ten_results (s : PageState) (page now now2 : Int)
    (rs : List PYQSearchResult) (o : Option (List PYQSearchResult))
    (hq : jsTrim s.query ≠ "") :
    ((handleSearch s page now (some rs)).1.hasMoreResults = true ↔ rs.length = 10)
    ∧ (s.hasMoreResults = false → uiStep s (.nextClick now2 o) = (s, none)) := by
  constructor
  · simp [handleSearch, hq]
  · intro hm
    simp [uiStep, hm]

/-- Witness for hasMore_iff_ten_results: a 0-item page sets the flag false
and Next becomes a no-op. -/
theorem hasMore_iff_ten_results_witness :
    ((handleSearch sampleState 1 0 (some [])).1.hasMoreResults = true
      ↔ ([] : List PYQSearchResult).length = 10)
    ∧ uiStep sampleState (.nextClick 0 none) = (sampleState, none) :=
  ⟨(hasMore_iff_ten_results sampleState 1 0 0 [] none (by decide)).1,
    (hasMore_iff_ten_results sampleState 1 0 0 [] none (by decide)).2 (by decide)⟩

/-- C3: a query that is empty after trimming makes handleSearch return
before any request is built, so no call reaches the search API and the
state is untouched; the spec-modelled backend validation classifies such a
request as InvalidQuery. -/
theorem blank_query_makes_no_request (s : PageState) (page now : Int)
    (o : Option (List PYQSearchResult)) (pageI limitI : Int)
    (hq : jsTrim s.query = "") :
    handleSearch s page now o = (s, none)
    ∧ validateRequest s.query pageI limitI = .error .InvalidQuery := by
  constructor
  · simp [handleSearch, hq]
  · simp [validateRequest, hq]

/-- Witness for blank_query_makes_no_request on a whitespace-only query. -/
theorem blank_query_makes_no_request_witness :
    handleSearch { initialPageState with query := "   " } 2 0 none
        = ({ initialPageState with query := "   " }, none)
    ∧ validateRequest ({ initialPageState with query := "   " } : PageState).query 1 10
        = .error .InvalidQuery :=
  blank_query_makes_no_request { initialPageState with query := "   " } 2 0 none 1 10 (by decide)

/-- C9: when the searchPYQs promise rejects, the results, currentPage,
hasMoreResults and totalResults of the page are left at their previous
values and only the loading flag is reset by the finally block. -/
theorem failed_search_leaves_state (s : PageState) (page now : Int)
    (hq : jsTrim s.query ≠ "") :
    (handleSearch s page now none).1.results = s.results
    ∧ (handleSearch s page now none).1.currentPage = s.currentPage
    ∧ (handleSearch s page now none).1.hasMoreResults = s.hasMoreResults
    ∧ (handleSearch s page now none).1.totalResults = s.totalResults
    ∧ (handleSearch s page now none).1.loading = false := by
  simp [handleSearch, hq]

/-- Witness for failed_search_leaves_state at a concrete state. -/
theorem failed_search_leaves_state_witness :
    (handleSearch sampleState 3 0 none).1.results = sampleState.results
    ∧ (handleSearch sampleState 3 0 none).1.currentPage = sampleState.currentPage
    ∧ (handleSearch sampleState 3 0 none).1.hasMoreResults = sampleState.hasMoreResults
    ∧ (handleSearch sampleState 3 0 none).1.totalResults = sampleState.totalResults
    ∧ (handleSearch sampleState 3 0 none).1.loading = false :=
  failed_search_leaves_state sampleState 3 0 (by decide)

/-- A distinct sample result per index, for concrete witnesses. -/
def sampleResult (n : Nat) : PYQSearchResult :=
  { id := (n : Int)
    question := "q"
    year := 2020
    paper := "GS1"
    subject := "s"
    topics := []
    marks := 10
    difficulty := "easy"
    similarity_score := 0 }

/-- A concrete cached result set of 25 pairwise distinct items. -/
def sample25 : List PYQSearchResult := (List.range 25).map sampleResult

lemma sampleResult_injective : Function.Injective sampleResult := by
  intro a b h
  have hid : (a : Int) = (b : Int) := congrArg PYQSearchResult.id h
  exact_mod_cast hid

lemma sample25_len : sample25.length = 25 := by simp [sample25]

lemma sample25_nodup : sample25.Nodup := by
  have h : (List.range 25).Nodup := List.nodup_range 25
  exact h.map sampleResult_injective

/-- C1: against one cached result set of 25 items, page 1 and page 2 at
limit 10 are two full disjoint windows, the three pages concatenate back
to the whole set in its original order, and the requests issued for
page 1 and page 2 differ in their page field while mapping to the same
cache fingerprint. -/
theorem pagination_transparency (rs : List PYQSearchResult)
    (h25 : rs.length = 25) (hnd : rs.Nodup)
    (q : String) (f : UiFilters) (now1 now2 : Int) :
    (sliceResults rs 1 10).length = 10
    ∧ (sliceResults rs 2 10).length = 10
    ∧ List.Disjoint (sliceResults rs 1 10) (sliceResults rs 2 10)
    ∧ sliceResults rs 1 10 ++ sliceResults rs 2 10 ++ sliceResults rs 3 10 = rs
    ∧ (buildSearchRequestV2 q (some (uiSearchFilters f 1)) now1).page
        ≠ (buildSearchRequestV2 q (some (uiSearchFilters f 2)) now2).page
    ∧ fingerprintOfRequest (buildSearchRequestV2 q (some (uiSearchFilters f 1)) now1)
        = fingerprintOfRequest (buildSearchRequestV2 q (some (uiSearchFilters f 2)) now2) := by
  have e1 : sliceResults rs 1 10 = rs.take 10 := by simp [sliceResults]
  have e2 : sliceResults rs 2 10 = (rs.drop 10).take 10 := by norm_num [sliceResults]
  have e3 : sliceResults rs 3 10 = (rs.drop 20).take 10 := by norm_num [sliceResults]
  have hdisj : List.Disjoint (rs.take 10) (rs.drop 10) :=
    List.disjoint_take_drop hnd (le_refl 10)
  refine ⟨?_, ?_, ?_, ?_, ?_, rfl⟩
  · rw [e1]
    simp [List.length_take, h25]
  · rw [e2]
    simp [List.length_take, List.length_drop, h25]
  · rw [e1, e2]
    intro a ha hb
    exact hdisj ha (List.take_subset _ _ hb)
  · rw [e1, e2, e3]
    have hfull : rs.take 30 = rs := List.take_of_length_le (by omega)
    have h30 : rs.take 30 = rs.take 10 ++ (rs.drop 10).take 20 := by
      have := List.take_add rs 10 20
      simpa using this
    have h20 : (rs.drop 10).take 20
        = (rs.drop 10).take 10 ++ ((rs.drop 10).drop 10).take 10 := by
      have := List.take_add (rs.drop 10) 10 10
      simpa using this
    have hdd : (rs.drop 10).drop 10 = rs.drop 20 := by
      rw [List.drop_drop]
    have key : rs.take 10 ++ ((rs.drop 10).take 10 ++ (rs.drop 20).take 10) = rs := by
      rw [← hdd, ← h20, ← h30, hfull]
    rw [List.append_assoc]
    exact key
  · show (1 : Int) ≠ 2
    decide

/-- Witness for pagination_transparency on a concrete 25-item set. -/
theorem pagination_transparency_witness :
    (sliceResults sample25 1 10).length = 10
    ∧ (sliceResults sample25 2 10).length = 10
    ∧ List.Disjoint (sliceResults sample25 1 10) (sliceResults sample25 2 10)
    ∧ sliceResults sample25 1 10 ++ sliceResults sample25 2 10 ++ sliceResults sample25 3 10
        = sample25
    ∧ (buildSearchRequestV2 "climate" (some (uiSearchFilters { subject := "", year := "" } 1)) 0).page
        ≠ (buildSearchRequestV2 "climate" (some (uiSearchFilters { subject := "", year := "" } 2)) 0).page
    ∧ fingerprintOfRequest
          (buildSearchRequestV2 "climate" (some (uiSearchFilters { subject := "", year := "" } 1)) 0)
        = fingerprintOfRequest
          (buildSearchRequestV2 "climate" (some (uiSearchFilters { subject := "", year := "" } 2)) 0) :=
  pagination_transparency sample25 sample25_len sample25_nodup "climate"
    { subject := "", year := "" } 0 0

/-- An entry created at time 0, probing the expiry boundary. -/
def staleProbeEntry : CacheEntry :=
  { fingerprint := "fp", results := [], createdAt := 0 }

/-- C4 counterexample: a lookup at exactly T + TTL still returns the
entry, because the modelled contract expires strictly after the TTL
(absent if now - createdAt > TTL), so the entry is not absent at every
time at or past T + TTL. -/
theorem cache_present_at_exact_ttl :
    cacheGet (fun _ => some staleProbeEntry) "fp" (staleProbeEntry.createdAt + cacheTTL)
      = some staleProbeEntry := by
  decide

/-- C4 (amended): a stored entry created at T is returned by every lookup
at time at most T + TTL and treated as absent by every lookup strictly
after T + TTL, independent of physical storage. -/
theorem cache_ttl_expiry (store : String → Option CacheEntry) (fp : String)
    (e : CacheEntry) (now : Nat) (hstore : store fp = some e) :
    (now ≤ e.createdAt + cacheTTL → cacheGet store fp now = some e)
    ∧ (e.createdAt + cacheTTL < now → cacheGet store fp now = none) := by
  constructor
  · intro h
    have hc : ¬ (now - e.createdAt > cacheTTL) := by omega
    simp [cacheGet, hstore, hc]
  · intro h
    have hc : now - e.createdAt > cacheTTL := by omega
    simp [cacheGet, hstore, hc]

/-- Witness for cache_ttl_expiry: present shortly after creation, absent
one millisecond past the TTL. -/
theorem cache_ttl_expiry_witness :
    cacheGet (fun _ => some staleProbeEntry) "fp" 5 = some staleProbeEntry
    ∧ cacheGet (fun _ => some staleProbeEntry) "fp" (cacheTTL + 1) = none :=
  ⟨(cache_ttl_expiry (fun _ => some staleProbeEntry) "fp" staleProbeEntry 5 rfl).1 (by decide),
    (cache_ttl_expiry (fun _ => some staleProbeEntry) "fp" staleProbeEntry (cacheTTL + 1) rfl).2
      (by decide)⟩

lemma buildV2_ui_page (q : String) (f : UiFilters) (page now : Int) :
    (buildSearchRequestV2 q (some (uiSearchFilters f page)) now).page
      = if page = 0 then 1 else page := rfl

lemma handleSearch_page_inv (s : PageState) (page now : Int)
    (o : Option (List PYQSearchResult)) (hp : 1 ≤ page) (h : 1 ≤ s.currentPage) :
    1 ≤ (handleSearch s page now o).1.currentPage
    ∧ ∀ r ∈ (handleSearch s page now o).2, 1 ≤ r.page := by
  by_cases hq : jsTrim s.query = ""
  · refine ⟨by simpa [handleSearch, hq] using h, by simp [handleSearch, hq]⟩
  · have hreq : (1 : Int)
        ≤ (buildSearchRequestV2 s.query (some (uiSearchFilters s.filters page)) now).page := by
      rw [buildV2_ui_page]
      split <;> omega
    cases o with
    | some rs =>
        constructor
        · simpa [handleSearch, hq] using hp
        · intro r hr
          simp [handleSearch, hq] at hr
          subst hr
          exact hreq
    | none =>
        constructor
        · simpa [handleSearch, hq] using h
        · intro r hr
          simp [handleSearch, hq] at hr
          subst hr
          exact hreq

lemma autoSearch_page_inv (s : PageState) (now : Int)
    (o : Option (List PYQSearchResult)) (h : 1 ≤ s.currentPage) :
    1 ≤ (autoSearch s now o).1.currentPage
    ∧ ∀ r ∈ (autoSearch s now o).2, 1 ≤ r.page := by
  by_cases hg : jsTrim s.query = "" ∨ s.results = []
  · refine ⟨by simpa [autoSearch, hg] using h, by simp [autoSearch, hg]⟩
  · have hreq : (1 : Int)
        ≤ (buildSearchRequestV2 s.query (some (uiSearchFilters s.filters 1)) now).page := by
      rw [buildV2_ui_page]
      split <;> omega
    cases o with
    | some rs =>
        constructor
        · simp [autoSearch, hg]
        · intro r hr
          simp [autoSearch, hg] at hr
          subst hr
          exact hreq
    | none =>
        constructor
        · simpa [autoSearch, hg] using h
        · intro r hr
          simp [autoSearch, hg] at hr
          subst hr
          exact hreq

lemma uiStep_page_inv (s : PageState) (e : UiEvent) (h : 1 ≤ s.currentPage) :
    1 ≤ (uiStep s e).1.currentPage
    ∧ ∀ r ∈ (uiStep s e).2, 1 ≤ r.page := by
  cases e with
  | setQuery q => exact ⟨by simpa [uiStep] using h, by simp [uiStep]⟩
  | setSubject sub => exact ⟨by simpa [uiStep] using h, by simp [uiStep]⟩
  | setYear y => exact ⟨by simpa [uiStep] using h, by simp [uiStep]⟩
  | searchClick now o =>
      by_cases hl : s.loading
      · exact ⟨by simpa [uiStep, hl] using h, by simp [uiStep, hl]⟩
      · have := handleSearch_page_inv s 1 now o (by omega) h
        exact ⟨by simpa [uiStep, hl] using this.1, by simpa [uiStep, hl] using this.2⟩
  | enterKey now o =>
      have := handleSearch_page_inv s 1 now o (by omega) h
      exact ⟨by simpa [uiStep] using this.1, by simpa [uiStep] using this.2⟩
  | nextClick now o =>
      by_cases hc : s.results = [] ∨ s.hasMoreResults = false ∨ s.loading = true
      · exact ⟨by simpa [uiStep, hc] using h, by simp [uiStep, hc]⟩
      · have := handleSearch_page_inv s (s.currentPage + 1) now o (by omega) h
        exact ⟨by simpa [uiStep, hc] using this.1, by simpa [uiStep, hc] using this.2⟩
  | prevClick now o =>
      by_cases hc : s.results = [] ∨ s.currentPage = 1 ∨ s.loading = true
      · exact ⟨by simpa [uiStep, hc] using h, by simp [uiStep, hc]⟩
      · have hcp : s.currentPage ≠ 1 := by
          intro h1
          exact hc (Or.inr (Or.inl h1))
        have := handleSearch_page_inv s (s.currentPage - 1) now o (by omega) h
        exact ⟨by simpa [uiStep, hc] using this.1, by simpa [uiStep, hc] using this.2⟩
  | filtersAutoSearch now o =>
      have := autoSearch_page_inv s now o h
      exact ⟨by simpa [uiStep] using this.1, by simpa [uiStep] using this.2⟩

lemma uiRun_page_inv (es : List UiEvent) :
    ∀ s : PageState, 1 ≤ s.currentPage →
    1 ≤ (uiRun s es).1.currentPage ∧ ∀ r ∈ (uiRun s es).2, 1 ≤ r.page := by
  induction es with
  | nil =>
      intro s h
      exact ⟨by simpa [uiRun] using h, by simp [uiRun]⟩
  | cons e es ih =>
      intro s h
      have h1 := uiStep_page_inv s e h
      have h2 := ih (uiStep s e).1 h1.1
      refine ⟨by simpa [uiRun] using h2.1, ?_⟩
      intro r hr
      simp only [uiRun, List.mem_append] at hr
      rcases hr with hr | hr
      · exact h1.2 r (by simpa using hr)
      · exact h2.2 r hr

/-- C6: from the initial page state, every state reachable by any sequence
of user interactions keeps currentPage at least 1, and every search
request those interactions issue carries a page of at least 1 (Previous is
not actionable at page 1). -/
theorem reachable_pages_ge_one (events : List UiEvent) :
    1 ≤ (uiRun initialPageState events).1.currentPage
    ∧ ((uiRun initialPageState events).2.all (fun r => decide (1 ≤ r.page))) = true := by
  have h := uiRun_page_inv events initialPageState (by decide)
  refine ⟨h.1, ?_⟩
  rw [List.all_eq_true]
  intro r hr
  simpa using h.2 r hr
